import Mathlib

/-!
Verification development for the debug-listener core of vscode_abap_remote_fs
(src/client/src/adt/debugger/debugListener.ts).

The TypeScript class DebugListener is embedded shallowly: the mutable fields
(active, attached, killed) become an explicit state record, each remote call
issued through the ADT client becomes an oracle input describing its outcome
(resolve value or rejection value), and every method becomes a pure Lean
function from state and oracle to a result, a successor state, and a trace of
observable actions (network calls issued, UI prompts, emitted events).
JavaScript errors and the values thrown or rejected are modelled by a small
JS-value type; try/catch becomes Except.
-/

set_option autoImplicit false

namespace DebugListenerModel

/-- Model of the JavaScript values thrown by or passed to the error
classifier: undefined, null, a plain (non-ADT-library) Error carrying only a
message and having neither a properties bag nor a response field, or a
structured error produced by the abap-adt-api library with an optional
string-valued properties bag and an optional response object whose body field
may itself be absent (response = some none models a response object whose
body is undefined). -/
inductive JSVal where
  | undef
  | null
  | plain (msg : String)
  | adt (props : Option (List (String × String))) (response : Option (Option String))
  deriving DecidableEq, Repr

/-- First value bound to a key in an association list, as a JS bag lookup. -/
def lookupStr (key : String) : List (String × String) → Option String
  | [] => none
  | (k, v) :: rest => if k = key then some v else lookupStr key rest

/-- The ATTACHTIMEOUT constant of the source. -/
def ATTACHTIMEOUT : String := "autoAttachTimeout"

/-- The structured sub-type key read from the error properties bag. -/
def subTypeKey : String := "com.sap.adt.communicationFramework.subType"

/-- Optional-chaining field extraction of the structured sub-type: never
throws, yields the bag entry when a bag is present and the key is bound. -/
def subTypeField : JSVal → Option String
  | .adt (some props) _ => lookupStr subTypeKey props
  | _ => none

/-- Optional-chaining extraction of the conflictText entry of the bag. -/
def conflictText : JSVal → Option String
  | .adt (some props) _ => lookupStr "conflictText" props
  | _ => none

/-- JS truthiness of a value of TypeScript type string or undefined: the
empty string and undefined are falsy. -/
def truthyOpt : Option String → Bool
  | some s => !(s == "")
  | none => false

/-- Evaluation of the template literal over err.response.body: throws a
TypeError unless a response object is present (for undefined, null, plain
errors, and structured errors without a response, reading body of undefined
throws); an absent body stringifies to "undefined". -/
def responseBody : JSVal → Except Unit String
  | .adt _ (some b) => .ok (b.getD "undefined")
  | _ => .error ()

/-- Boolean test that one character list starts with another. -/
def leadsWith : List Char → List Char → Bool
  | [], _ => true
  | _ :: _, [] => false
  | a :: as, b :: bs => a == b && leadsWith as bs

/-- Boolean substring test on character lists. -/
def listHas (pat : List Char) : List Char → Bool
  | [] => leadsWith pat []
  | c :: rest => leadsWith pat (c :: rest) || listHas pat rest

/-- Substring test on strings, modelling an unanchored JS regex match over a
literal pattern. -/
def strContains (s pat : String) : Bool := listHas pat.data s.data

/-- Body of errorType before the catch: reads the sub-type field; when it is
falsy, stringifies err.response.body (which may throw) and checks it for the
connection-timeout signature. -/
def errorTypeRaw (e : JSVal) : Except Unit (Option String) :=
  let et := subTypeField e
  if truthyOpt et then .ok et
  else
    match responseBody e with
    | .error u => .error u
    | .ok b =>
      if strContains b "Connection timed out" then .ok (some ATTACHTIMEOUT) else .ok et

/-- The errorType classifier of the source: the try/catch makes every
extraction failure degrade to undefined. -/
def errorType (e : JSVal) : Option String :=
  match errorTypeRaw e with
  | .ok r => r
  | .error _ => none

/-- The isConflictError helper: unanchored regex match of the two conflict
sub-types against the classification, with undefined coerced to "". -/
def isConflictError (e : JSVal) : Bool :=
  let s := (errorType e).getD ""
  strContains s "conflictNotification" || strContains s "conflictDetected"

/-- Restatement of the amended claim about errorType, written from its words
rather than from the source, to be compared with errorType: the sub-type
field is returned when it is present and non-empty; when it is absent or
empty and the response body is readable and matches the timeout signature,
the attach-timeout kind is returned; otherwise the (absent or empty) field
value itself is returned when the body was readable, and undefined when
reading the body threw. -/
def errorTypeSpec (e : JSVal) : Option String :=
  match subTypeField e with
  | some s =>
    if s = "" then
      match responseBody e with
      | .ok b => if strContains b "Connection timed out" then some ATTACHTIMEOUT else some ""
      | .error _ => none
    else some s
  | none =>
    match responseBody e with
    | .ok b => if strContains b "Connection timed out" then some ATTACHTIMEOUT else none
    | .error _ => none

/-- The mutable per-instance flags of DebugListener. -/
structure DLState where
  active : Bool
  attached : Bool
  killed : Bool
  deriving DecidableEq, Repr

/-- Errors that can propagate out of a method: the local Disconnected guard
error thrown by the client getter once killed, or a remote rejection value. -/
inductive Err where
  | disconnected
  | remote (e : JSVal)
  deriving DecidableEq, Repr

/-- Observable actions of one instance: network calls actually issued to the
ADT client, UI interactions, and events fired on the notifier. -/
inductive Action where
  | netListeners
  | netDeleteListener
  | netListen
  | netAttach
  | netSaveSettings
  | netDropSession
  | netLogout
  | netCloneLogout
  | showError (msg : String)
  | confirmAsk (msg : String)
  | evStopped
  | evTerminated
  deriving DecidableEq, Repr

/-- Result of running one async method: successor state, trace of actions in
order, and the rejection the returned promise settles with, if any. -/
structure Outcome where
  state : DLState
  trace : List Action
  threw : Option Err
  deriving DecidableEq, Repr

/-- Oracle outcome of one debuggerListeners probe call: resolution (with the
truthiness of the resolved value, i.e. whether a listener is registered) or a
rejection value. -/
inductive ProbeOut where
  | ok (found : Bool)
  | err (e : JSVal)
  deriving DecidableEq, Repr

/-- Oracle outcome of a remote call whose resolved value is not inspected
(deleteListener, attach, saveSettings, dropSession, logout). -/
inductive CallOut where
  | ok
  | err (e : JSVal)
  deriving DecidableEq, Repr

/-- The ConflictResult union of the source. -/
inductive ConflictResult where
  | none
  | other (message : Option String)
  | myself (message : Option String)
  deriving DecidableEq, Repr

/-- Resolved value of one debuggerListen long-poll: a falsy value, a
DebugListenerError (isDebugListenerError holds), or a stopped debuggee. -/
inductive ListenRes where
  | nothing
  | listenerError
  | debuggee (id : String)
  deriving DecidableEq, Repr

/-- Oracle outcome of one debuggerListen long-poll call. -/
inductive ListenOut where
  | ok (r : ListenRes)
  | err (e : JSVal)
  deriving DecidableEq, Repr

/-- Modelled from the library semantics of isAdtError (abap-adt-api, external
to this repository): exactly the structured errors constructed by the library
are ADT errors; only those carry the properties bag read by errorType. -/
def isAdtErr : Err → Bool
  | .remote (.adt _ _) => true
  | _ => false

/-- Classification of a caught error, as applied in the mainLoop catch. -/
def errTypeOf : Err → Option String
  | .remote v => errorType v
  | .disconnected => none

/-- ConflictText of a caught error. -/
def conflictTextOf : Err → Option String
  | .remote v => conflictText v
  | .disconnected => none

/-- JS short-circuit (value || default) on a string-or-undefined value. -/
def jsOr (m : Option String) (d : String) : String :=
  match m with
  | some s => if s = "" then d else s
  | none => d

/-- Modelled from the spec: the caughtToString stringifier lives in
src/client/src/lib, which is not part of the analyzed sources; it renders a
caught value as message text. No claim depends on the exact rendering, which
only feeds advisory UI message strings. -/
def errToString : Err → String
  | .disconnected => "Error: Disconnected"
  | .remote (.plain m) => "Error: " ++ m
  | .remote (.adt _ _) => "[adt error]"
  | .remote .null => "null"
  | .remote .undef => "undefined"

/-- The hasConflict probe with the killed flag sampled separately at each of
the two client-getter evaluations (k1 at the first probe, k2 at the second):
direct calls see the same flag twice, while logout creates the probe chain
before setting killed and resumes it afterwards, so there k1 = false and
k2 = true. A first-probe failure classified as a conflict yields other
without issuing the second probe; a second-probe conflict failure yields
myself; two resolutions yield none; other failures propagate. -/
def hasConflictK (k1 k2 : Bool) (o1 o2 : ProbeOut) : Except Err ConflictResult × List Action :=
  if k1 then (.error .disconnected, [])
  else
    match o1 with
    | .err e =>
      if isConflictError e then (.ok (.other (conflictText e)), [.netListeners])
      else (.error (.remote e), [.netListeners])
    | .ok _ =>
      if k2 then (.error .disconnected, [.netListeners])
      else
        match o2 with
        | .err e =>
          if isConflictError e then (.ok (.myself (conflictText e)), [.netListeners, .netListeners])
          else (.error (.remote e), [.netListeners, .netListeners])
        | .ok _ => (.ok .none, [.netListeners, .netListeners])

/-- The hasConflict method as invoked directly (both getters see the same
killed flag). -/
def hasConflict (s : DLState) (o1 o2 : ProbeOut) : Except Err ConflictResult × List Action :=
  hasConflictK s.killed s.killed o1 o2

/-- The stopListener method: when norestart, first clears active; then issues
deleteListener on the stateless clone of the raw _client field, bypassing the
killed guard of the client getter. -/
def stopListener (s : DLState) (norestart : Bool) (o : CallOut) :
    Except Err Unit × DLState × List Action :=
  let s1 := if norestart then { s with active := false } else s
  match o with
  | .ok => (.ok (), s1, [.netDeleteListener])
  | .err e => (.error (.remote e), s1, [.netDeleteListener])

/-- The debuggerListen helper: client getter (killed guard), then the
long-poll network call. -/
def debuggerListenCall (s : DLState) (o : ListenOut) : Except Err ListenRes × List Action :=
  if s.killed then (.error .disconnected, [])
  else
    match o with
    | .ok r => (.ok r, [.netListen])
    | .err e => (.error (.remote e), [.netListen])

/-- Oracle for one stopDebugging invocation: the outcome of the user-mode
listeners probe and of the deleteListener teardown if one is issued. -/
structure StopOracle where
  probe : ProbeOut
  del : CallOut
  deriving DecidableEq, Repr

/-- Truthiness of running in stopDebugging: the resolved probe value, or, on
rejection, the result of the isConflictError rejection handler. -/
def sdRunning (orc : StopOracle) : Bool :=
  match orc.probe with
  | .ok found => found
  | .err e => isConflictError e

/-- The stopDebugging method: clears active first; when stopDebugger, the
client getter may throw Disconnected, otherwise the user-mode listeners probe
(rejections mapped through isConflictError) decides whether stopListener is
awaited; the TerminatedEvent fires only if nothing threw before the end. -/
def stopDebugging (s : DLState) (stopDebugger : Bool) (orc : StopOracle) : Outcome :=
  let s1 := { s with active := false }
  if stopDebugger then
    if s1.killed then ⟨s1, [], some .disconnected⟩
    else if sdRunning orc then
      match stopListener s1 true orc.del with
      | (.ok _, s2, t) => ⟨s2, .netListeners :: (t ++ [.evTerminated]), none⟩
      | (.error e, s2, t) => ⟨s2, .netListeners :: t, some e⟩
    else ⟨s1, [.netListeners, .evTerminated], none⟩
  else ⟨s1, [.evTerminated], none⟩

/-- Condition under which stopDebugging true reaches its final event: the
instance is not killed, and the teardown, when one is issued because the
probe reported a registered listener, resolves. -/
def sdEmitsTerminated (s : DLState) (orc : StopOracle) : Bool :=
  !s.killed && (!(sdRunning orc) || orc.del == CallOut.ok)

/-- Save-settings-and-notify tail of onBreakpointReached, entered after the
attach step with the attached flag already updated: the guarded client getter
precedes the saveSettings call; on success the StoppedEvent fires; any throw
runs the catch, which logs and awaits a full stopDebugging. -/
def onBreakpointSave (s : DLState) (sv : CallOut) (orc : StopOracle) (pre : List Action) :
    Outcome :=
  if s.killed then
    let sd := stopDebugging s true orc
    ⟨sd.state, pre ++ sd.trace, sd.threw⟩
  else
    match sv with
    | .ok => ⟨s, pre ++ [.netSaveSettings, .evStopped], none⟩
    | .err _ =>
      let sd := stopDebugging s true orc
      ⟨sd.state, pre ++ .netSaveSettings :: sd.trace, sd.threw⟩

/-- The onBreakpointReached method: attach through the guarded client when
not yet attached, set attached on success, then save settings and fire the
StoppedEvent; any throw in the try block is caught, logged, and answered by a
full stopDebugging whose own rejection propagates. -/
def onBreakpointReached (s : DLState) (att sv : CallOut) (orc : StopOracle) : Outcome :=
  if s.attached then onBreakpointSave s sv orc []
  else if s.killed then
    -- the attach call evaluates the client getter, which throws Disconnected
    stopDebugging s true orc
  else
    match att with
    | .ok => onBreakpointSave { s with attached := true } sv orc [.netAttach]
    | .err _ =>
      let sd := stopDebugging s true orc
      ⟨sd.state, .netAttach :: sd.trace, sd.threw⟩

/-- Oracle for one iteration of the listen loop: the long-poll outcome,
whether the active flag survived the suspension (a concurrent stop may clear
it while the long-poll is pending), and the outcomes consumed by the
breakpoint handler and by the catch branch of the same iteration. -/
structure IterOracle where
  listen : ListenOut
  stillActive : Bool
  attach : CallOut
  save : CallOut
  confirmQuit : Bool
  stop : StopOracle
  deriving DecidableEq, Repr

/-- The catch block of the mainLoop while body, with k the resumption of the
loop (which re-checks the while condition). Order of checks as in the source:
return when active was cleared; surface non-ADT errors and keep looping; on a
conflict sub-type surface the conflict text (or the generic message), await
stopDebugging false and resume (the loop then exits on the cleared flag); on
the attach-timeout sub-type silently keep looping; otherwise ask the UI and,
on confirmation, await a full stopDebugging whose rejection propagates. -/
def mainLoopCatch (s : DLState) (o : IterOracle) (e : Err) (pre : List Action)
    (k : DLState → Outcome) : Outcome :=
  if s.active = false then ⟨s, pre, none⟩
  else if isAdtErr e = false then
    let r := k s
    ⟨r.state, pre ++ .showError ("Error listening to debugger: " ++ errToString e) :: r.trace,
      r.threw⟩
  else if errTypeOf e == some "conflictNotification" || errTypeOf e == some "conflictDetected" then
    let txt := jsOr (conflictTextOf e) "Debugger terminated by another session/user"
    let sd := stopDebugging s false o.stop
    let r := k sd.state
    ⟨r.state, pre ++ .showError txt :: (sd.trace ++ r.trace), r.threw⟩
  else if errTypeOf e == some ATTACHTIMEOUT then
    let r := k s
    ⟨r.state, pre ++ r.trace, r.threw⟩
  else
    let prompt := "Error listening to debugger: " ++ errToString e ++ " Close session?"
    if o.confirmQuit then
      let sd := stopDebugging s true o.stop
      match sd.threw with
      | some e2 => ⟨sd.state, pre ++ .confirmAsk prompt :: sd.trace, some e2⟩
      | none =>
        let r := k sd.state
        ⟨r.state, pre ++ .confirmAsk prompt :: (sd.trace ++ r.trace), r.threw⟩
    else
      let r := k s
      ⟨r.state, pre ++ .confirmAsk prompt :: r.trace, r.threw⟩

/-- The while body of mainLoop over a list of per-iteration oracles; an
exhausted oracle list models a long-poll that never settles, truncating the
run. A falsy long-poll result or a cleared active flag re-enters the loop; a
DebugListenerError result breaks out; a debuggee runs the breakpoint handler
inside the try, so a throw from it reaches the same catch. -/
def mainLoopGo : DLState → List IterOracle → Outcome
  | s, [] => ⟨s, [], none⟩
  | s, o :: rest =>
    if s.active then
      match debuggerListenCall s o.listen with
      | (.error e, pre) =>
        let s1 :=
          match e with
          | .disconnected => s
          | .remote _ => { s with active := s.active && o.stillActive }
        mainLoopCatch s1 o e pre (fun s2 => mainLoopGo s2 rest)
      | (.ok r, pre) =>
        let s1 := { s with active := s.active && o.stillActive }
        match r with
        | .nothing =>
          let k := mainLoopGo s1 rest
          ⟨k.state, pre ++ k.trace, k.threw⟩
        | .listenerError =>
          if s1.active = false then
            let k := mainLoopGo s1 rest
            ⟨k.state, pre ++ k.trace, k.threw⟩
          else ⟨s1, pre, none⟩
        | .debuggee _ =>
          if s1.active = false then
            let k := mainLoopGo s1 rest
            ⟨k.state, pre ++ k.trace, k.threw⟩
          else
            let b := onBreakpointReached s1 o.attach o.save o.stop
            match b.threw with
            | some e2 => mainLoopCatch b.state o e2 (pre ++ b.trace) (fun s2 => mainLoopGo s2 rest)
            | none =>
              let k := mainLoopGo b.state rest
              ⟨k.state, pre ++ b.trace ++ k.trace, k.threw⟩
    else ⟨s, [], none⟩

/-- The mainLoop method: sets active and runs the while loop. -/
def mainLoop (s : DLState) (orc : List IterOracle) : Outcome :=
  mainLoopGo { s with active := true } orc

/-- Oracle for one fireMainLoop invocation: the two probe outcomes, the
takeover confirmation answer, the stale-listener teardown outcome, and the
oracle of the launched loop. -/
structure FireOracle where
  probe1 : ProbeOut
  probe2 : ProbeOut
  confirmTakeover : Bool
  del : CallOut
  loop : List IterOracle
  deriving DecidableEq, Repr

/-- The fireMainLoop method. The launched mainLoop is not awaited; its trace
is sequentialized after the startup actions and its rejection, if any, is
dropped (an unhandled rejection in the source). The UI Confirmator is
modelled as always resolving; any error thrown during arbitration or the
awaited teardown is caught, surfaced on the UI error sink, and answered by a
false (not started) result. -/
def fireMainLoop (s : DLState) (orc : FireOracle) : Bool × DLState × List Action :=
  match hasConflict s orc.probe1 orc.probe2 with
  | (.error e, t) =>
    (false, s, t ++ [.showError ("Error listening to debugger: " ++ errToString e)])
  | (.ok c, t) =>
    match c with
    | .myself _ =>
      match stopListener s true orc.del with
      | (.ok _, s1, t1) =>
        let k := mainLoop s1 orc.loop
        (true, k.state, t ++ t1 ++ k.trace)
      | (.error e, s1, t1) =>
        (false, s1, t ++ t1 ++ [.showError ("Error listening to debugger: " ++ errToString e)])
    | .other m =>
      let prompt := jsOr m "Debugger conflict detected" ++ " Take over debugging?"
      if orc.confirmTakeover then
        match stopListener s false orc.del with
        | (.ok _, s1, t1) =>
          let k := mainLoop s1 orc.loop
          (true, k.state, t ++ .confirmAsk prompt :: (t1 ++ k.trace))
        | (.error e, s1, t1) =>
          (false, s1,
            t ++ .confirmAsk prompt ::
              (t1 ++ [.showError ("Error listening to debugger: " ++ errToString e)]))
      else (false, s, t ++ [.confirmAsk prompt])
    | .none =>
      let k := mainLoop s orc.loop
      (true, k.state, t ++ k.trace)

/-- Oracle for one logout invocation: the two probe outcomes of the stale
listener check, whether the captured client reports itself logged in, and the
outcomes of dropSession and of the two final logout calls. -/
structure LogoutOracle where
  probe1 : ProbeOut
  probe2 : ProbeOut
  loggedin : Bool
  drop : CallOut
  mainOut : CallOut
  cloneOut : CallOut
  deriving DecidableEq, Repr

/-- The logout method. Flags are cleared first and killed is set before any
continuation of the probe chain resumes, so the probe chain sees killed =
false at its first client getter and killed = true at its second
(hasConflictK false true); all of its failures, the stale-listener teardown
failure, and a dropSession rejection are swallowed by ignore handlers. When
dropSession resolves, the two final logout calls run under Promise.all and a
rejection there propagates out of the method: the chain
stop.then(drop, ignore).then(logoutBoth, ignore) has no handler after the
last step. -/
def logout (s : DLState) (orc : LogoutOracle) : Outcome :=
  let s0 := { s with active := false, attached := false }
  if s0.killed then ⟨s0, [], none⟩
  else
    let s1 := { s0 with killed := true }
    let hc := hasConflictK false true orc.probe1 orc.probe2
    let tStop :=
      match hc.1 with
      | .ok (.myself _) => [Action.netDeleteListener]
      | _ => []
    let base := hc.2 ++ tStop
    if orc.loggedin then
      match orc.drop with
      | .err _ => ⟨s1, base ++ [.netDropSession], none⟩
      | .ok =>
        match orc.mainOut, orc.cloneOut with
        | .ok, .ok => ⟨s1, base ++ [.netDropSession, .netLogout, .netCloneLogout], none⟩
        | .err e, _ => ⟨s1, base ++ [.netDropSession, .netLogout, .netCloneLogout], some (.remote e)⟩
        | .ok, .err e => ⟨s1, base ++ [.netDropSession, .netLogout, .netCloneLogout], some (.remote e)⟩
    else ⟨s1, base, none⟩

/-- The process-wide sessionNumbers map as a total function defaulting to 0,
matching get-or-zero on an initially empty Map. -/
def sessionNumbersInit : String → Nat := fun _ => 0

/-- The constructor counter update: next number is the stored value plus one,
stored back under the same connection id. -/
def allocate (m : String → Nat) (connId : String) : Nat × (String → Nat) :=
  (m connId + 1, fun c => if c = connId then m connId + 1 else m c)

/-- Session numbers assigned by a sequence of constructions, in order. -/
def assignedNumbers (m : String → Nat) : List String → List Nat
  | [] => []
  | c :: rest => (allocate m c).1 :: assignedNumbers (allocate m c).2 rest

/-- Projection testing a probe result for the myself attribution. -/
def resIsMyself : Except Err ConflictResult → Bool
  | .ok (.myself _) => true
  | _ => false

/-- Projection testing a probe result for the other attribution. -/
def resIsOther : Except Err ConflictResult → Bool
  | .ok (.other _) => true
  | _ => false

/-- Projection testing a probe result for the none attribution. -/
def resIsNone : Except Err ConflictResult → Bool
  | .ok .none => true
  | _ => false

/-! Theorems. Shared helper lemmas come first, then one theorem per claim
(with its witness or counterexample where required). -/

theorem leadsWith_append (p r : List Char) : leadsWith p (p ++ r) = true := by
  induction p with
  | nil => rfl
  | cons a as ih => simp [leadsWith, ih]

theorem listHas_of_leadsWith (p l : List Char) (h : leadsWith p l = true) :
    listHas p l = true := by
  cases l with
  | nil => simpa [listHas] using h
  | cons c r => simp [listHas, h]

theorem listHas_nil_pat (l : List Char) : listHas [] l = true := by
  cases l <;> simp [listHas, leadsWith]

theorem strContains_append_self (m suffix : String) :
    strContains (m ++ suffix) m = true := by
  by_cases hm : m = ""
  · subst hm
    simpa [strContains] using listHas_nil_pat ("" ++ suffix).data
  · have hd : (m ++ suffix).data = m.data ++ suffix.data := String.data_append m suffix
    simp only [strContains, hd]
    exact listHas_of_leadsWith _ _ (leadsWith_append m.data suffix.data)

theorem strContains_jsOr_some (m d suffix : String) :
    strContains (jsOr (some m) d ++ suffix) m = true := by
  by_cases hm : m = ""
  · subst hm
    simpa [strContains] using listHas_nil_pat (jsOr (some "") d ++ suffix).data
  · simpa [jsOr, hm] using strContains_append_self m suffix

/-- C6: the errorType classifier never throws (it is total, all extraction
failures inside the try block degrade to the unclassified result) and, as
amended, on every input it returns the sub-type field when that field is
present and non-empty; when the field is absent or empty it returns the
attach-timeout kind if the response body is readable and matches the
connection-timeout signature; otherwise it returns the falsy field value
itself when the body was readable, and the unclassified result when reading
the body threw. -/
theorem errorType_matches_amended_spec (e : JSVal) : errorType e = errorTypeSpec e := by
  cases e with
  | undef => rfl
  | null => rfl
  | plain m => rfl
  | adt props resp =>
    cases props with
    | none =>
      cases resp with
      | none => rfl
      | some b =>
        by_cases hc : strContains (b.getD "undefined") "Connection timed out" <;>
          simp [errorType, errorTypeRaw, errorTypeSpec, subTypeField, responseBody, truthyOpt, hc]
    | some l =>
      cases h : lookupStr subTypeKey l with
      | none =>
        cases resp with
        | none =>
          simp [errorType, errorTypeRaw, errorTypeSpec, subTypeField, responseBody, truthyOpt, h]
        | some b =>
          by_cases hc : strContains (b.getD "undefined") "Connection timed out" <;>
            simp [errorType, errorTypeRaw, errorTypeSpec, subTypeField, responseBody, truthyOpt,
              h, hc]
      | some s =>
        by_cases hs : s = ""
        · subst hs
          cases resp with
          | none =>
            simp [errorType, errorTypeRaw, errorTypeSpec, subTypeField, responseBody, truthyOpt, h]
          | some b =>
            by_cases hc : strContains (b.getD "undefined") "Connection timed out" <;>
              simp [errorType, errorTypeRaw, errorTypeSpec, subTypeField, responseBody, truthyOpt,
                h, hc]
        · cases resp <;>
            simp [errorType, errorTypeRaw, errorTypeSpec, subTypeField, responseBody, truthyOpt,
              h, hs]

/-- Input refuting C6 as stated: the sub-type field is present but empty, and
the response body matches the timeout signature. -/
def c6err : JSVal :=
  JSVal.adt (some [(subTypeKey, "")]) (some (some "HTTP 500: Connection timed out"))

/-- C6 counterexample: on c6err the sub-type field is present (bound to the
empty string), yet the classifier does not return that field: it falls
through to the timeout match and returns the attach-timeout kind, refuting
the claim that the field is returned whenever present. -/
theorem errorType_present_field_counterexample :
    subTypeField c6err = some "" ∧ errorType c6err = some ATTACHTIMEOUT ∧
      errorType c6err ≠ subTypeField c6err := by
  refine ⟨by decide, by decide, by decide⟩

/-- A structured conflict error used by several counterexamples/witnesses. -/
def conflictErr : JSVal :=
  JSVal.adt (some [(subTypeKey, "conflictDetected"), ("conflictText", "held by BOB")]) none

/-- C1 counterexample: with both probe calls set to fail with a conflict
classification the probe returns the other attribution, not myself as the
claim states (the second outcome is never consumed: the first conflict
failure already returns); and with the first call succeeding and the second
failing with a conflict the probe returns myself, not none as the claim
states for a successful first call. -/
theorem hasConflict_counterexample :
    (hasConflictK false false (.err conflictErr) (.err conflictErr)).1
        = Except.ok (ConflictResult.other (some "held by BOB"))
    ∧ resIsMyself (hasConflictK false false (.err conflictErr) (.err conflictErr)).1 = false
    ∧ (hasConflictK false false (.ok true) (.err conflictErr)).1
        = Except.ok (ConflictResult.myself (some "held by BOB"))
    ∧ resIsNone (hasConflictK false false (.ok true) (.err conflictErr)).1 = false := by
  exact ⟨rfl, rfl, rfl, rfl⟩

/-- C1 as amended: for every pair of probe outcomes on a live instance, the
probe returns the other attribution iff the first call fails with a conflict
classification (in which case the second call is not issued); returns the
myself attribution iff the first call succeeds and the second fails with a
conflict classification; returns the none attribution iff both calls
succeed; every non-conflict failure propagates. -/
theorem hasConflict_characterization (o1 o2 : ProbeOut) :
    (resIsOther (hasConflictK false false o1 o2).1 = true ↔
      ∃ e, o1 = .err e ∧ isConflictError e = true)
    ∧ (resIsMyself (hasConflictK false false o1 o2).1 = true ↔
      ((∃ b, o1 = .ok b) ∧ ∃ e, o2 = .err e ∧ isConflictError e = true))
    ∧ (resIsNone (hasConflictK false false o1 o2).1 = true ↔
      ((∃ b, o1 = .ok b) ∧ ∃ b2, o2 = .ok b2)) := by
  cases o1 with
  | err e1 =>
    by_cases h1 : isConflictError e1 <;>
      simp [hasConflictK, resIsOther, resIsMyself, resIsNone, h1]
  | ok b1 =>
    cases o2 with
    | err e2 =>
      by_cases h2 : isConflictError e2 <;>
        simp [hasConflictK, resIsOther, resIsMyself, resIsNone, h2]
    | ok b2 => simp [hasConflictK, resIsOther, resIsMyself, resIsNone]

theorem sd_state (s : DLState) (b : Bool) (orc : StopOracle) :
    (stopDebugging s b orc).state = { s with active := false } := by
  by_cases hk : s.killed <;> by_cases hr : sdRunning orc <;> cases hd : orc.del <;>
    cases b <;> simp [stopDebugging, stopListener, hk, hr, hd]

theorem sd_count_terminated (s : DLState) (orc : StopOracle) :
    (stopDebugging s true orc).trace.count .evTerminated
      = if sdEmitsTerminated s orc then 1 else 0 := by
  by_cases hk : s.killed <;> by_cases hr : sdRunning orc <;> cases hd : orc.del <;>
    simp [stopDebugging, stopListener, sdEmitsTerminated, hk, hr, hd, List.count_cons]

theorem sd_threw_none_iff (s : DLState) (orc : StopOracle) :
    (stopDebugging s true orc).threw = none ↔ sdEmitsTerminated s orc = true := by
  by_cases hk : s.killed <;> by_cases hr : sdRunning orc <;> cases hd : orc.del <;>
    simp [stopDebugging, stopListener, sdEmitsTerminated, hk, hr, hd]

theorem sd_count_stopped (s : DLState) (b : Bool) (orc : StopOracle) :
    (stopDebugging s b orc).trace.count .evStopped = 0 := by
  by_cases hk : s.killed <;> by_cases hr : sdRunning orc <;> cases hd : orc.del <;>
    cases b <;> simp [stopDebugging, stopListener, hk, hr, hd, List.count_cons]

theorem sd_count_netAttach (s : DLState) (b : Bool) (orc : StopOracle) :
    (stopDebugging s b orc).trace.count .netAttach = 0 := by
  by_cases hk : s.killed <;> by_cases hr : sdRunning orc <;> cases hd : orc.del <;>
    cases b <;> simp [stopDebugging, stopListener, hk, hr, hd, List.count_cons]

theorem sd_threw_terminated (s : DLState) (b : Bool) (orc : StopOracle) :
    (stopDebugging s b orc).threw ≠ none →
      (stopDebugging s b orc).trace.count .evTerminated = 0 := by
  by_cases hk : s.killed <;> by_cases hr : sdRunning orc <;> cases hd : orc.del <;>
    cases b <;> simp [stopDebugging, stopListener, hk, hr, hd, List.count_cons]

/-- C4 as amended: stopDebugging true emits exactly one terminated event iff
the instance is not killed and the teardown, when one is issued because the
listener probe reported a registered listener, resolves; in every other case
(killed instance, or rejected teardown) it emits no terminated event and the
method itself rejects. -/
theorem stopDebugging_terminated_characterization (s : DLState) (orc : StopOracle) :
    ((stopDebugging s true orc).trace.count .evTerminated
        = if sdEmitsTerminated s orc then 1 else 0)
    ∧ ((stopDebugging s true orc).threw = none ↔ sdEmitsTerminated s orc = true) :=
  ⟨sd_count_terminated s orc, sd_threw_none_iff s orc⟩

/-- A live listener state used in several concrete evaluations. -/
def liveState : DLState := ⟨true, false, false⟩

/-- Oracle refuting C4: the probe finds a registered listener, the teardown
call rejects. -/
def failDel : StopOracle := ⟨.ok true, .err (.plain "network failure")⟩

/-- C4 counterexample: a stopDebugging true call on a live instance whose
listener probe finds a registered listener and whose deleteListener teardown
rejects emits no terminated event at all (and itself rejects), refuting the
claim that exactly one terminated event fires regardless of remote-call
failures. -/
theorem stopDebugging_no_terminated_counterexample :
    (stopDebugging liveState true failDel).trace.count .evTerminated = 0
    ∧ (stopDebugging liveState true failDel).threw
        = some (Err.remote (JSVal.plain "network failure")) := ⟨rfl, rfl⟩

/-- C10: stopDebugging clears active as its first action (the cleared flag is
observed in every outcome, including all failure paths, so it is never rolled
back), modifies neither attached nor killed, and whenever the method rejects
the terminated event has not been fired. -/
theorem stopDebugging_frame (s : DLState) (b : Bool) (orc : StopOracle) :
    (stopDebugging s b orc).state.active = false
    ∧ (stopDebugging s b orc).state.attached = s.attached
    ∧ (stopDebugging s b orc).state.killed = s.killed
    ∧ ((stopDebugging s b orc).threw ≠ none →
        (stopDebugging s b orc).trace.count .evTerminated = 0) := by
  have hs := sd_state s b orc
  exact ⟨by simp [hs], by simp [hs], by simp [hs], sd_threw_terminated s b orc⟩

/-- A killed listener state. -/
def killedState : DLState := ⟨false, false, true⟩

/-- C3 counterexample: on a killed instance the stopListener helper (the
deleteListener remote call) does not fail locally with Disconnected: it still
issues the network call and resolves, because it reads the raw client field
instead of the guarded getter; this refutes the claim that every remote call,
the delete-listener included, is rejected locally once killed. -/
theorem stopListener_bypasses_guard_counterexample :
    stopListener killedState true .ok
      = (.ok (), { killedState with active := false }, [.netDeleteListener]) := rfl

/-- C3 as amended: once killed, every remote call routed through the guarded
client getter (the long-poll listen, the conflict probe, the breakpoint
handler with its attach and save-settings steps, and stopDebugging true with
its listener probe) fails locally with the Disconnected error and issues no
network action; the deleteListener helper however reads the raw client field,
bypassing the guard, and still issues its network call. -/
theorem killed_guard (s : DLState) (h : s.killed = true) :
    (∀ o : ListenOut, debuggerListenCall s o = (.error .disconnected, []))
    ∧ (∀ o1 o2 : ProbeOut, hasConflict s o1 o2 = (.error .disconnected, []))
    ∧ (∀ att sv : CallOut, ∀ orc : StopOracle,
        onBreakpointReached s att sv orc
          = ⟨{ s with active := false }, [], some .disconnected⟩)
    ∧ (∀ orc : StopOracle,
        stopDebugging s true orc = ⟨{ s with active := false }, [], some .disconnected⟩)
    ∧ (∀ n : Bool, ∀ o : CallOut, (stopListener s n o).2.2 = [.netDeleteListener]) := by
  refine ⟨fun o => ?_, fun o1 o2 => ?_, fun att sv orc => ?_, fun orc => ?_, fun n o => ?_⟩
  · simp [debuggerListenCall, h]
  · simp [hasConflict, hasConflictK, h]
  · by_cases ha : s.attached <;>
      simp [onBreakpointReached, onBreakpointSave, stopDebugging, h, ha]
  · simp [stopDebugging, h]
  · cases o <;> simp [stopListener]

/-- C3 witness: the guard theorem applied at a concrete killed state. -/
theorem killed_guard_witness :
    (∀ o : ListenOut, debuggerListenCall killedState o = (.error .disconnected, []))
    ∧ (∀ o1 o2 : ProbeOut, hasConflict killedState o1 o2 = (.error .disconnected, []))
    ∧ (∀ att sv : CallOut, ∀ orc : StopOracle,
        onBreakpointReached killedState att sv orc
          = ⟨{ killedState with active := false }, [], some .disconnected⟩)
    ∧ (∀ orc : StopOracle,
        stopDebugging killedState true orc
          = ⟨{ killedState with active := false }, [], some .disconnected⟩)
    ∧ (∀ n : Bool, ∀ o : CallOut, (stopListener killedState n o).2.2 = [.netDeleteListener]) :=
  killed_guard killedState rfl

/-- Oracle exhibiting the uncaught logout rejection: the stale-listener probe
resolves (its resumption then hits the local guard and is swallowed), the
client is logged in, dropSession resolves, and the final logout call on the
primary client rejects. -/
def c2oracle : LogoutOracle := ⟨.ok false, .ok false, true, .ok, .err (.plain "logout failed"), .ok⟩

/-- C2: the logout method does not swallow every failure. With a live
instance, a logged-in client, the probe and dropSession resolving, and the
final logout call rejecting, the promise returned by logout rejects: the
chain stop.then(dropSession, ignore).then(logoutBoth, ignore) has no
rejection handler after its last step, so a rejection of either final logout
call propagates to the caller. -/
theorem logout_rejects_code_bug :
    (logout liveState c2oracle).threw = some (Err.remote (JSVal.plain "logout failed")) := rfl

/-- Element of a string list at a position, defaulting to the empty string. -/
def nthStr : List String → Nat → String
  | [], _ => ""
  | x :: _, 0 => x
  | _ :: rest, j + 1 => nthStr rest j

/-- Element of a number list at a position, defaulting to zero. -/
def nthNat : List Nat → Nat → Nat
  | [], _ => 0
  | x :: _, 0 => x
  | _ :: rest, j + 1 => nthNat rest j

/-- Occurrences of a connection id in a list. -/
def countOcc (c : String) : List String → Nat
  | [] => 0
  | x :: rest => (if x = c then 1 else 0) + countOcc c rest

theorem countOcc_take_succ (l : List String) (j : Nat) (h : j < l.length) (c : String) :
    countOcc c (l.take (j + 1)) = countOcc c (l.take j) + (if nthStr l j = c then 1 else 0) := by
  induction l generalizing j with
  | nil => simp at h
  | cons x rest ih =>
    cases j with
    | zero => simp [countOcc, nthStr]
    | succ k =>
      have hk : k < rest.length := by simpa using h
      simp only [List.take_succ_cons, countOcc, nthStr, ih k hk]
      omega

theorem countOcc_take_le (l : List String) (c : String) :
    ∀ a b : Nat, a ≤ b → countOcc c (l.take a) ≤ countOcc c (l.take b) := by
  induction l with
  | nil => intro a b _; simp [countOcc]
  | cons x rest ih =>
    intro a b hab
    cases a with
    | zero => simp [countOcc]
    | succ a2 =>
      cases b with
      | zero => omega
      | succ b2 =>
        have := ih a2 b2 (by omega)
        simp only [List.take_succ_cons, countOcc]
        omega

theorem countOcc_take_lt (l : List String) (c : String) (j i : Nat) (hj : j < i)
    (hji : j < l.length) (hc : nthStr l j = c) :
    countOcc c (l.take j) < countOcc c (l.take i) := by
  have h1 : countOcc c (l.take (j + 1)) = countOcc c (l.take j) + 1 := by
    rw [countOcc_take_succ l j hji c, hc]
    simp
  have h2 : countOcc c (l.take (j + 1)) ≤ countOcc c (l.take i) :=
    countOcc_take_le l c (j + 1) i (by omega)
  omega

theorem assignedNumbers_nth (m : String → Nat) (l : List String) (i : Nat)
    (h : i < l.length) :
    nthNat (assignedNumbers m l) i
      = m (nthStr l i) + countOcc (nthStr l i) (l.take i) + 1 := by
  induction l generalizing m i with
  | nil => simp at h
  | cons c rest ih =>
    cases i with
    | zero => simp [assignedNumbers, allocate, nthNat, nthStr, countOcc]
    | succ j =>
      have hj : j < rest.length := by simpa using h
      have hrec := ih (allocate m c).2 j hj
      simp only [assignedNumbers, nthNat, nthStr, List.take_succ_cons, countOcc] at hrec ⊢
      rw [hrec]
      by_cases hx : nthStr rest j = c
      · simp [allocate, hx]
        omega
      · have hx2 : ¬(c = nthStr rest j) := fun hh => hx hh.symm
        simp [allocate, hx, hx2]

/-- C7: over any sequence of constructions, the session number assigned at
position i equals one plus the number of earlier constructions for the same
connection id (so the numbering per connection id is 1-based: the first
construction gets 1, the second gets 2, and so on, and constructions for
other connection ids never affect it), and the numbers assigned to the same
connection id are strictly increasing along the sequence. -/
theorem sessionNumbers_monotone (l : List String) (i : Nat) (hi : i < l.length) :
    nthNat (assignedNumbers sessionNumbersInit l) i
        = countOcc (nthStr l i) (l.take i) + 1
    ∧ (∀ j, j < i → nthStr l j = nthStr l i →
        nthNat (assignedNumbers sessionNumbersInit l) j
          < nthNat (assignedNumbers sessionNumbersInit l) i) := by
  constructor
  · simpa [sessionNumbersInit] using assignedNumbers_nth sessionNumbersInit l i hi
  · intro j hj hc
    have hji : j < l.length := lt_trans hj hi
    have e1 := assignedNumbers_nth sessionNumbersInit l j hji
    have e2 := assignedNumbers_nth sessionNumbersInit l i hi
    rw [e1, e2, hc]
    simp only [sessionNumbersInit]
    have := countOcc_take_lt l (nthStr l i) j i hj hji hc
    omega

/-- C7 witness: the numbering theorem applied to the concrete construction
sequence A, B, A at position 2 (the second construction for A gets 2, and
the number at position 0 is smaller). -/
theorem sessionNumbers_monotone_witness :
    nthNat (assignedNumbers sessionNumbersInit ["A", "B", "A"]) 2
        = countOcc (nthStr ["A", "B", "A"] 2) (["A", "B", "A"].take 2) + 1
    ∧ (∀ j, j < 2 → nthStr ["A", "B", "A"] j = nthStr ["A", "B", "A"] 2 →
        nthNat (assignedNumbers sessionNumbersInit ["A", "B", "A"]) j
          < nthNat (assignedNumbers sessionNumbersInit ["A", "B", "A"]) 2) :=
  sessionNumbers_monotone ["A", "B", "A"] 2 (by decide)

theorem mainLoopGo_inactive (s : DLState) (l : List IterOracle) (h : s.active = false) :
    mainLoopGo s l = ⟨s, [], none⟩ := by
  cases l <;> simp [mainLoopGo, h]

/-- C9: in the breakpoint handler the attached flag is set right after a
successful attach and before the save-settings call: when save-settings then
rejects, the handler runs a full stopDebugging instead of firing a stopped
event, the attached flag stays true in the final state, and a later
breakpoint stop from that state issues no attach call at all. -/
theorem onBreakpointReached_attach_before_save (s : DLState) (e : JSVal)
    (orc orc2 : StopOracle) (att2 sv2 : CallOut)
    (hk : s.killed = false) (ha : s.attached = false) :
    onBreakpointReached s .ok (.err e) orc
      = ⟨(stopDebugging { s with attached := true } true orc).state,
         .netAttach :: .netSaveSettings ::
           (stopDebugging { s with attached := true } true orc).trace,
         (stopDebugging { s with attached := true } true orc).threw⟩
    ∧ (onBreakpointReached s .ok (.err e) orc).state.attached = true
    ∧ (onBreakpointReached s .ok (.err e) orc).trace.count .evStopped = 0
    ∧ (onBreakpointReached (onBreakpointReached s .ok (.err e) orc).state
        att2 sv2 orc2).trace.count .netAttach = 0 := by
  have hsd := sd_state { s with attached := true } true orc
  have hmain : onBreakpointReached s .ok (.err e) orc
      = ⟨(stopDebugging { s with attached := true } true orc).state,
         .netAttach :: .netSaveSettings ::
           (stopDebugging { s with attached := true } true orc).trace,
         (stopDebugging { s with attached := true } true orc).threw⟩ := by
    simp [onBreakpointReached, onBreakpointSave, ha, hk]
  refine ⟨hmain, ?_, ?_, ?_⟩
  · rw [hmain]
    simp [hsd]
  · rw [hmain]
    simp [List.count_cons, sd_count_stopped]
  · rw [hmain]
    simp only [hsd]
    cases sv2 <;>
      simp [onBreakpointReached, onBreakpointSave, hk, List.count_cons, sd_count_netAttach]

/-- Probe oracle where no listener is found and teardown resolves. -/
def quietStop : StopOracle := ⟨.ok false, .ok⟩

/-- C9 witness: the theorem applied to a live unattached state with a
rejecting save-settings call. -/
theorem onBreakpointReached_attach_before_save_witness :
    onBreakpointReached liveState .ok (.err (.plain "save failed")) quietStop
      = ⟨(stopDebugging { liveState with attached := true } true quietStop).state,
         .netAttach :: .netSaveSettings ::
           (stopDebugging { liveState with attached := true } true quietStop).trace,
         (stopDebugging { liveState with attached := true } true quietStop).threw⟩
    ∧ (onBreakpointReached liveState .ok (.err (.plain "save failed")) quietStop).state.attached
        = true
    ∧ (onBreakpointReached liveState .ok
        (.err (.plain "save failed")) quietStop).trace.count .evStopped = 0
    ∧ (onBreakpointReached (onBreakpointReached liveState .ok
          (.err (.plain "save failed")) quietStop).state
        .ok .ok quietStop).trace.count .netAttach = 0 :=
  onBreakpointReached_attach_before_save liveState (.plain "save failed") quietStop quietStop
    .ok .ok rfl rfl

/-- C5: while the session is active, a long-poll rejection whose
classification is one of the two conflict sub-types makes the loop surface
the conflict text (or the generic terminated-by-another-session message) on
the UI error sink, run stopDebugging false (no listener probe, no
deleteListener, only the terminated event), and terminate without issuing
any further listen call, whatever the remaining iterations would have
returned. -/
theorem mainLoop_conflict_stops (s : DLState) (o : IterOracle) (rest : List IterOracle)
    (e : JSVal) (hk : s.killed = false) (hl : o.listen = .err e) (hsa : o.stillActive = true)
    (ht : errorType e = some "conflictNotification" ∨ errorType e = some "conflictDetected") :
    mainLoop s (o :: rest)
      = ⟨{ s with active := false },
         [.netListen,
          .showError (jsOr (conflictText e) "Debugger terminated by another session/user"),
          .evTerminated],
         none⟩ := by
  cases e with
  | undef =>
    exfalso
    simp [errorType, errorTypeRaw, subTypeField, responseBody, truthyOpt] at ht
  | null =>
    exfalso
    simp [errorType, errorTypeRaw, subTypeField, responseBody, truthyOpt] at ht
  | plain msg =>
    exfalso
    simp [errorType, errorTypeRaw, subTypeField, responseBody, truthyOpt] at ht
  | adt props resp =>
    have hcond : (errTypeOf (.remote (JSVal.adt props resp)) == some "conflictNotification"
        || errTypeOf (.remote (JSVal.adt props resp)) == some "conflictDetected") = true := by
      rcases ht with h | h <;> simp [errTypeOf, h]
    simp [mainLoop, mainLoopGo, mainLoopCatch, debuggerListenCall, hk, hl, hsa, hcond,
      isAdtErr, conflictTextOf, stopDebugging, mainLoopGo_inactive]

/-- Iteration oracle for the C5 witness: the long-poll rejects with the
conflict error. -/
def c5iter : IterOracle := ⟨.err conflictErr, true, .ok, .ok, false, quietStop⟩

/-- C5 witness: the theorem applied to a live state and the concrete conflict
rejection. -/
theorem mainLoop_conflict_stops_witness :
    mainLoop liveState (c5iter :: [])
      = ⟨{ liveState with active := false },
         [.netListen,
          .showError (jsOr (conflictText conflictErr)
            "Debugger terminated by another session/user"),
          .evTerminated],
         none⟩ :=
  mainLoop_conflict_stops liveState c5iter [] conflictErr rfl rfl rfl (Or.inr rfl)

/-- C8: when arbitration attributes the conflict to another owner with a
conflict message, fireMainLoop asks the UI for confirmation with a prompt
containing that message, and a negative answer makes it return false with no
listen call and no deleteListener teardown ever issued. -/
theorem fireMainLoop_decline (s : DLState) (orc : FireOracle) (e1 : JSVal) (m : String)
    (hk : s.killed = false) (hp : orc.probe1 = .err e1) (hc : isConflictError e1 = true)
    (hm : conflictText e1 = some m) (hd : orc.confirmTakeover = false) :
    fireMainLoop s orc
        = (false, s,
           [.netListeners,
            .confirmAsk (jsOr (some m) "Debugger conflict detected" ++ " Take over debugging?")])
    ∧ strContains (jsOr (some m) "Debugger conflict detected" ++ " Take over debugging?") m
        = true
    ∧ (fireMainLoop s orc).2.2.count .netListen = 0
    ∧ (fireMainLoop s orc).2.2.count .netDeleteListener = 0 := by
  have hmain : fireMainLoop s orc
      = (false, s,
         [.netListeners,
          .confirmAsk (jsOr (some m) "Debugger conflict detected"
            ++ " Take over debugging?")]) := by
    simp [fireMainLoop, hasConflict, hasConflictK, hk, hp, hc, hm, hd]
  refine ⟨hmain, strContains_jsOr_some m _ _, ?_, ?_⟩ <;> rw [hmain] <;>
    simp [List.count_cons]

/-- Arbitration oracle for the C8 witness: first probe rejects with the
conflict error, user declines the takeover. -/
def c8oracle : FireOracle := ⟨.err conflictErr, .ok false, false, .ok, []⟩

/-- C8 witness: the theorem applied at the concrete foreign-conflict oracle
with message held by BOB. -/
theorem fireMainLoop_decline_witness :
    fireMainLoop liveState c8oracle
        = (false, liveState,
           [.netListeners,
            .confirmAsk (jsOr (some "held by BOB") "Debugger conflict detected"
              ++ " Take over debugging?")])
    ∧ strContains (jsOr (some "held by BOB") "Debugger conflict detected"
        ++ " Take over debugging?") "held by BOB" = true
    ∧ (fireMainLoop liveState c8oracle).2.2.count .netListen = 0
    ∧ (fireMainLoop liveState c8oracle).2.2.count .netDeleteListener = 0 :=
  fireMainLoop_decline liveState c8oracle conflictErr "held by BOB" rfl rfl rfl rfl rfl

end DebugListenerModel
